import Mathlib

/-!
Verification of the DCU CTIP example scripts (`dcuctipapi.py`,
`dcuctipapi2stix.py`, `dcuctiptsfapi.py`).

The development shallowly embeds the paginated-fetch-with-retry loop and the
record-to-STIX mapping of the scripts.  Network I/O is modelled by explicit
event traces (one event per HTTP request issued by the loop); Python integers
become `Nat`/`Int`; Python floats appear only where the scripts inspect their
`str()` image, and are represented by that string image; JSON objects become
structures whose fields carry an absent/null/value tri-state, so that a
missing key can raise the `KeyError` the per-record error handler catches.
Logging, file writing and the stix2 library's constructor-side validation are
side effects outside the model: a stix2 constructor call is recorded as a pure
value holding exactly the arguments the script passes it.
-/

namespace DcuCtip

/-- CTIP_API_OFFSET_INIT from the scripts. -/
def CTIP_API_OFFSET_INIT : Nat := 1

/-- CTIP_API_MAX_RETRIES from the scripts. -/
def CTIP_API_MAX_RETRIES : Nat := 3

/-- CTIP_API_MAX_RETRY_DELAY_SECONDS from the scripts. -/
def CTIP_API_MAX_RETRY_DELAY_SECONDS : Nat := 10

/-- CTIP_API_RETRY_DELAY_MULTIPLIER from the scripts. -/
def CTIP_API_RETRY_DELAY_MULTIPLIER : Nat := 3

/-- Outcome of one `requests.get` call inside the 429 retry sub-loop: either a
response with an HTTP status code, or a raised network exception (caught by
the bare `except:` of the sub-loop). -/
inductive RetryOutcome where
  | resp (status : Nat)
  | exc
deriving DecidableEq, Repr

/-- State of the 429 retry sub-loop (`retryAttempt`, `retryDelay`, the list of
`time.sleep` delays performed so far, and the status of the current
`apiResponse`). -/
structure RetryState where
  retryAttempt : Nat
  retryDelay : Nat
  sleeps : List Nat
  status : Nat
deriving DecidableEq, Repr

/-- The 429 retry sub-loop (dcuctipapi.py lines 145-161, identical in
dcuctipapi2stix.py lines 152-168 and dcuctiptsfapi.py lines 134-150).
`results k` is the outcome of the `k`-th retry request (`k = 1, 2, 3`).
The loop body sleeps `retryDelay`, increments `retryAttempt`, re-issues the
request, and breaks on a 200; the bare `except:` multiplies `retryDelay` by
`CTIP_API_RETRY_DELAY_MULTIPLIER`, so the delay changes only when the retry
request itself raised.  The `fuel` argument bounds the recursion; since
`retryAttempt` grows by one per iteration, fuel `CTIP_API_MAX_RETRIES` is
exact. -/
def retryRequestLoop (results : Nat → RetryOutcome) : Nat → RetryState → RetryState
  | 0, st => st
  | fuel + 1, st =>
    if st.retryAttempt < CTIP_API_MAX_RETRIES then
      let sleeps := st.sleeps ++ [st.retryDelay]
      let retryAttempt := st.retryAttempt + 1
      match results retryAttempt with
      | .resp code =>
        if code = 200 then
          { st with retryAttempt, sleeps, status := code }
        else
          retryRequestLoop results fuel { st with retryAttempt, sleeps, status := code }
      | .exc =>
        retryRequestLoop results fuel
          { st with retryAttempt, sleeps,
                    retryDelay := st.retryDelay * CTIP_API_RETRY_DELAY_MULTIPLIER }
    else st

/-- Entry into the retry sub-loop: reached when `apiResponse.status_code` is
429, with `retryAttempt = 0` and `retryDelay = CTIP_API_MAX_RETRY_DELAY_SECONDS`. -/
def runRetrySubLoop (results : Nat → RetryOutcome) : RetryState :=
  retryRequestLoop results CTIP_API_MAX_RETRIES
    { retryAttempt := 0, retryDelay := CTIP_API_MAX_RETRY_DELAY_SECONDS,
      sleeps := [], status := 429 }

/-- One iteration of the outer fetch loop, seen from its response handling:
a 200 response carrying the `x-total-row-count` header value and the decoded
record list, a non-200/non-retried status (400, 403, other), or a raised
network exception.  `records` is the list `json.loads(gzip.decompress(...))`
decodes from the body. -/
inductive LoopEvent (α : Type) where
  | ok (total : Nat) (records : List α)
  | errStatus (status : Nat)
  | exc
deriving DecidableEq, Repr

/-- The loop-local variables of `CtipApi` (dcuctipapi.py lines 94-103):
`totalRowCount`, `offset`, `totalDownloadedDataCount`, `ctipDataDownload`. -/
structure FetchState (α : Type) where
  totalRowCount : Nat
  offset : Nat
  totalDownloadedDataCount : Nat
  ctipDataDownload : List α
deriving DecidableEq, Repr

/-- Initial values of the loop-local variables. -/
def initFetchState {α : Type} : FetchState α :=
  { totalRowCount := 0, offset := CTIP_API_OFFSET_INIT,
    totalDownloadedDataCount := 0, ctipDataDownload := [] }

/-- Result of one loop iteration: continue looping, `break` out of the loop,
or propagate a raised exception to the handlers around the loop. -/
inductive StepOut (σ : Type) where
  | next (s : σ)
  | halt (s : σ)
  | raise (s : σ)
deriving DecidableEq, Repr

/-- The state carried by a step result. -/
def stepState {σ : Type} : StepOut σ → σ
  | .next s => s
  | .halt s => s
  | .raise s => s

/-- One iteration of the download loop of `CtipApi`
(dcuctipapi.py lines 163-220, identical in dcuctipapi2stix.py lines 170-227).
On a 200 response `totalRowCount` is assigned from the `x-total-row-count`
header of THIS response (line 166: the assignment is unconditional; only the
progress log line is guarded by `offset == CTIP_API_OFFSET_INIT`), the chunk
is decoded, `totalDownloadedDataCount` grows by the chunk size, and when the
chunk is nonempty the records are appended, `offset` advances by the chunk
size, and the loop breaks once `offset > totalRowCount`; an empty chunk
breaks immediately.  Non-200 statuses break; a raised exception leaves the
loop for the `except` handlers. -/
def fetchStep {α : Type} (s : FetchState α) : LoopEvent α → StepOut (FetchState α)
  | .ok total records =>
    let totalRowCount := total
    let downloadedDataCount := records.length
    let totalDownloadedDataCount := s.totalDownloadedDataCount + downloadedDataCount
    if 0 < downloadedDataCount then
      let ctipDataDownload := s.ctipDataDownload ++ records
      let offset := s.offset + downloadedDataCount
      if totalRowCount < offset then
        .halt { totalRowCount, offset, totalDownloadedDataCount, ctipDataDownload }
      else
        .next { totalRowCount, offset, totalDownloadedDataCount, ctipDataDownload }
    else
      .halt { totalRowCount, offset := s.offset, totalDownloadedDataCount,
              ctipDataDownload := s.ctipDataDownload }
  | .errStatus _ => .halt s
  | .exc => .raise s

/-- How the fetch loop ended: via `break`, via a raised exception (caught by
the handlers around the loop), or with the supplied event trace exhausted
(a model artifact: a real run always ends in one of the first two ways).
`rest` is the unconsumed part of the trace. -/
inductive FetchResult (α : Type) where
  | halted (s : FetchState α) (rest : List (LoopEvent α))
  | raised (s : FetchState α) (rest : List (LoopEvent α))
  | exhausted (s : FetchState α)
deriving DecidableEq, Repr

/-- The `while True` download loop of `CtipApi`, driven by an event trace. -/
def fetchLoop {α : Type} : List (LoopEvent α) → FetchState α → FetchResult α
  | [], s => .exhausted s
  | e :: es, s =>
    match fetchStep s e with
    | .next s' => fetchLoop es s'
    | .halt s' => .halted s' es
    | .raise s' => .raised s' es

/-- The state at loop exit. -/
def fetchResultState {α : Type} : FetchResult α → FetchState α
  | .halted s _ => s
  | .raised s _ => s
  | .exhausted s => s

/-- Return value of `dcuctipapi.CtipApi` (lines 267-271): the `finally`
block returns `ctipDataDownload` on every path, including after a caught
network exception. -/
def CtipApiDownload {α : Type} (events : List (LoopEvent α)) : List α :=
  (fetchResultState (fetchLoop events initFetchState)).ctipDataDownload

/-- Variant of `fetchStep` following the SPEC's words for claim C2
("read the total-row-count from a response header (captured once, on the
first chunk)"): `totalRowCount` is taken from the response header only on the
first chunk (`offset = CTIP_API_OFFSET_INIT`) and kept afterwards.  Used only
to contrast with the source-derived `fetchStep`. -/
def specFirstTotalStep {α : Type} (s : FetchState α) : LoopEvent α → StepOut (FetchState α)
  | .ok total records =>
    let totalRowCount := if s.offset = CTIP_API_OFFSET_INIT then total else s.totalRowCount
    let downloadedDataCount := records.length
    let totalDownloadedDataCount := s.totalDownloadedDataCount + downloadedDataCount
    if 0 < downloadedDataCount then
      let ctipDataDownload := s.ctipDataDownload ++ records
      let offset := s.offset + downloadedDataCount
      if totalRowCount < offset then
        .halt { totalRowCount, offset, totalDownloadedDataCount, ctipDataDownload }
      else
        .next { totalRowCount, offset, totalDownloadedDataCount, ctipDataDownload }
    else
      .halt { totalRowCount, offset := s.offset, totalDownloadedDataCount,
              ctipDataDownload := s.ctipDataDownload }
  | .errStatus _ => .halt s
  | .exc => .raise s

/-- The fetch loop under the spec's capture-once reading of the header. -/
def specFirstTotalLoop {α : Type} : List (LoopEvent α) → FetchState α → FetchResult α
  | [], s => .exhausted s
  | e :: es, s =>
    match specFirstTotalStep s e with
    | .next s' => specFirstTotalLoop es s'
    | .halt s' => .halted s' es
    | .raise s' => .raised s' es

end DcuCtip

namespace Dcuctiptsfapi

/-- One iteration of `CtipFraudApi`'s loop seen from its response handling
(dcuctiptsfapi.py lines 152-223).  A 200 response carries the
`x-total-row-count` header value, the row count
`GetDownloadedDataCount(apiResponse.content)` decoded from the response body,
and the row count `GetSavedDataCount(gzFilename)` decoded back from the gzip
file written for the chunk (computed only when saving is enabled, and used
only in a log line). -/
inductive TsfEvent where
  | ok (total downloadedDataCount savedDataCount : Nat)
  | errStatus (status : Nat)
  | exc
deriving DecidableEq, Repr

/-- Loop-local variables of `CtipFraudApi` (dcuctiptsfapi.py lines 88-97). -/
structure TsfState where
  totalRowCount : Nat
  offset : Nat
  totalDownloadedDataCount : Nat
  gzFileCount : Nat
deriving DecidableEq, Repr

/-- Initial values of `CtipFraudApi`'s loop-local variables. -/
def initTsfState : TsfState :=
  { totalRowCount := 0, offset := DcuCtip.CTIP_API_OFFSET_INIT,
    totalDownloadedDataCount := 0, gzFileCount := 0 }

/-- One iteration of `CtipFraudApi`'s download loop
(dcuctiptsfapi.py lines 152-223).  On a 200 response `totalRowCount` is
re-read from the header, `totalDownloadedDataCount` grows by the downloaded
row count; when rows were downloaded, the chunk is written to a gzip file
(counted by `gzFileCount`) if `saveCtipDataFiles` is set — the saved row
count is then computed but only logged — and `offset` advances by
`downloadedDataCount` (line 197) before the `offset > totalRowCount`
completion test.  An empty chunk, a 403 or another non-200 status breaks;
a raised network exception leaves the loop. -/
def tsfFetchStep (saveCtipDataFiles : Bool) (s : TsfState) :
    TsfEvent → DcuCtip.StepOut TsfState
  | .ok total downloadedDataCount _savedDataCount =>
    let totalRowCount := total
    let totalDownloadedDataCount := s.totalDownloadedDataCount + downloadedDataCount
    if 0 < downloadedDataCount then
      let gzFileCount := if saveCtipDataFiles then s.gzFileCount + 1 else s.gzFileCount
      let offset := s.offset + downloadedDataCount
      if totalRowCount < offset then
        .halt { totalRowCount, offset, totalDownloadedDataCount, gzFileCount }
      else
        .next { totalRowCount, offset, totalDownloadedDataCount, gzFileCount }
    else
      .halt { totalRowCount, offset := s.offset, totalDownloadedDataCount,
              gzFileCount := s.gzFileCount }
  | .errStatus _ => .halt s
  | .exc => .raise s

end Dcuctiptsfapi

namespace Dcuctipapi2stix

/-- CTIP_API_INFECTED from the scripts. -/
def CTIP_API_INFECTED : String := "Infected"

/-- CTIP_API_C2 from the scripts. -/
def CTIP_API_C2 : String := "C2"

/-- A JSON number as decoded by `json.loads`: a Python int, or a Python
float represented by its `str()` image (the converters only inspect floats
through `str(...)`). -/
inductive PyNum where
  | int (i : Int)
  | float (s : String)
deriving DecidableEq, Repr

/-- Python `str()` of a decoded JSON number (`str(0)` is `"0"`,
`str(0.0)` is `"0.0"`). -/
def pyNumStr : PyNum → String
  | .int i => toString i
  | .float s => s

/-- A field of a decoded JSON object: the key may be absent, hold JSON
`null` (Python `None`), or hold a value. -/
inductive JField (α : Type) where
  | absent
  | null
  | val (a : α)
deriving DecidableEq, Repr

/-- Errors raised during single-record conversion: a `KeyError` from a
bracket access on a missing key, a `TypeError` from using `None` where a
value is required, or an invalid-value error. -/
inductive ConvErr where
  | keyError
  | typeError
  | valueError
deriving DecidableEq, Repr

/-- Bracket access `objCtipData['Key']`: raises `KeyError` when the key is
absent, otherwise yields the value (`none` for JSON null). -/
def JField.get {α : Type} : JField α → Except ConvErr (Option α)
  | .absent => .error .keyError
  | .null => .ok none
  | .val a => .ok (some a)

/-- The `Signatures` sub-object of a C2 record. -/
structure CtipSignatures where
  Sha256 : JField String
deriving DecidableEq, Repr

/-- A decoded CTIP record: the union of the fields the two converters
access.  Every field access in the converters is a bracket access, so a
field is a `JField`. -/
structure CtipRecord where
  DateTimeReceivedUtc : JField String
  ThreatConfidence : JField String
  TLP : JField String
  Malware : JField String
  ThreatCode : JField String
  DataFeed : JField String
  SourcedFrom : JField String
  SourceIp : JField String
  DestinationIp : JField String
  HttpMethod : JField String
  HttpRequest : JField String
  HttpVersion : JField String
  HttpHost : JField String
  HttpUserAgent : JField String
  HttpReferrer : JField String
  HttpDomain : JField String
  SourcePort : JField Int
  DestinationPort : JField Int
  SourceIpAsnNumber : JField Int
  SourceIpAsnOrgName : JField String
  SourceIpLatitude : JField PyNum
  SourceIpLongitude : JField PyNum
  SourceIpCountryCode : JField String
  SourceIpRegion : JField String
  SourceIpCity : JField String
  DestinationIpAsnNumber : JField Int
  DestinationIpAsnOrgName : JField String
  DestinationIpLatitude : JField PyNum
  DestinationIpLongitude : JField PyNum
  DestinationIpCountryCode : JField String
  DestinationIpRegion : JField String
  DestinationIpCity : JField String
  CustomField1 : JField String
  CustomField2 : JField String
  CustomField3 : JField String
  CustomField4 : JField String
  CustomField5 : JField String
  Payload : JField String
  Signatures : JField CtipSignatures

/-- Python `str.lower()`, for the ASCII strings the converters compare
against (`"high"`, `"red"`, ...). -/
def pyLower (s : String) : String := ⟨s.data.map Char.toLower⟩

/-- Python truthiness of a string-valued field (`None` and `''` are falsy). -/
def pyTruthyStr (x : Option String) : Bool :=
  match x with
  | none => false
  | some s => !(s == "")

/-- The converters' `'' if not x else x` idiom. -/
def pyOrEmpty (x : Option String) : String :=
  if pyTruthyStr x then x.getD "" else ""

/-- The converters' `'' if not x else x.lower()` idiom. -/
def pyOrEmptyLower (x : Option String) : String :=
  if pyTruthyStr x then pyLower (x.getD "") else ""

/-- Python truthiness of an int-valued field (`None` and `0` are falsy). -/
def pyTruthyInt (x : Option Int) : Bool :=
  match x with
  | none => false
  | some i => !(i == 0)

/-- The converters' `0 if not x else x` idiom. -/
def pyOrZero (x : Option Int) : Int :=
  if pyTruthyInt x then x.getD 0 else 0

/-- Interpolation `f"{x}"` of a possibly-`None` string value: `None`
renders as the string `"None"`. -/
def pyFStr (x : Option String) : String :=
  match x with
  | none => "None"
  | some s => s

/-- Python `str()` of a possibly-`None` number value. -/
def pyOptNumStr (x : Option PyNum) : String :=
  match x with
  | none => "None"
  | some v => pyNumStr v

/-- `None` where a string value is required (string concatenation,
`.lower()`, `parser.isoparse`): raises `TypeError`. -/
def reqStr (x : Option String) : Except ConvErr String :=
  match x with
  | none => .error .typeError
  | some s => .ok s

/-- Subscripting `None` (as in `objCtipData['Signatures']['Sha256']` when
`Signatures` is null) raises `TypeError`. -/
def reqSig (x : Option CtipSignatures) : Except ConvErr CtipSignatures :=
  match x with
  | none => .error .typeError
  | some s => .ok s

/-- A STIX TLP marking reference (`stix2.TLP_RED` / `TLP_AMBER` /
`TLP_GREEN`). -/
inductive Tlp where
  | red
  | amber
  | green
deriving DecidableEq, Repr

/-- The arguments passed to `stix2.HTTPRequestExt`: a field is `none` when
the script does not pass the corresponding key at all, and `some v` when it
passes value `v` (which may itself be the string the script computed, or a
raw possibly-null record value). -/
structure HttpReqExt where
  requestMethod : Option String
  requestValue : Option String
  requestVersion : Option String
  headerHost : Option String
  headerUserAgent : Option String
  headerReferer : Option String

/-- A STIX object as constructed by the converters: each constructor records
the argument values the script passes to the corresponding `stix2`
constructor.  Timestamps are carried as their source strings
(`GetStixTimestamp` abstracts `parser.isoparse`).  A `note`'s `object_refs`
list holds the referenced objects themselves. -/
inductive StixObj where
  | indicator (name description : String) (labels : List String) (confidence : Int)
      (indicatorTypes : List String) (patternType pattern validFrom : String)
      (marking : Tlp)
  | infrastructure (name description : String) (labels : List String) (confidence : Int)
      (infrastructureTypes : List String) (lastSeen : String) (marking : Tlp)
  | malware (name : Option String) (description : String) (isFamily : Bool)
  | ipv4 (value : Option String)
  | networkTraffic (srcRef : Option String) (srcPort : Option Int)
      (dstRef : Option String) (dstPort : Option Int) (http : HttpReqExt)
      (start : String) (protocols : List String)
  | autonomousSystem (number : Int) (name : String)
  | location (latitude longitude : Option PyNum) (country region city : String)
  | note (abstract content : String) (refs : List StixObj)
  | file (name : String) (sha256 : String)

/-- `GetStixTimestamp` (dcuctipapi2stix.py lines 386-397).  `parser.isoparse`
is abstracted: the parsed timestamp is represented by its source string; a
`None` argument raises as in the script. -/
def GetStixTimestamp (ctipTimestamp : Option String) : Except ConvErr String :=
  match ctipTimestamp with
  | none => .error .typeError
  | some s => .ok s

/-- `GetThreatConfidenceInfoInfected` (dcuctipapi2stix.py lines 399-418). -/
def GetThreatConfidenceInfoInfected (ctipThreatConfidence : String) : Int × String :=
  if pyLower ctipThreatConfidence = "high" then (85, "compromised")
  else if pyLower ctipThreatConfidence = "medium" then (50, "malicious-activity")
  else if pyLower ctipThreatConfidence = "low" then (25, "anomalous-activity")
  else (0, "anomalous-activity")

/-- `GetThreatConfidenceInfoC2` (dcuctipapi2stix.py lines 420-439). -/
def GetThreatConfidenceInfoC2 (ctipThreatConfidence : String) : Int × String :=
  if pyLower ctipThreatConfidence = "high" then (85, "command-and-control")
  else if pyLower ctipThreatConfidence = "medium" then (50, "command-and-control")
  else if pyLower ctipThreatConfidence = "low" then (25, "command-and-control")
  else (0, "anomalous-activity")

/-- `GetTlpInfo` (dcuctipapi2stix.py lines 441-458). -/
def GetTlpInfo (ctipTlp : String) : String × Tlp :=
  if pyLower ctipTlp = "red" then ("TLP: Red", .red)
  else if pyLower ctipTlp = "amber" then ("TLP: Amber", .amber)
  else if pyLower ctipTlp = "green" then ("TLP: Green", .green)
  else ("TLP: Red", .red)

/-- `GetHttpProtocol` (dcuctipapi2stix.py lines 460-479): `None` and `0`
(falsy) give `"unknown"`. -/
def GetHttpProtocol (port : Option Int) : String :=
  match port with
  | none => "unknown"
  | some p =>
    if p = 0 then "unknown"
    else if p = 80 then "http"
    else if p = 443 then "https"
    else "unknown"

/-- The coordinate normalization of both converters (dcuctipapi2stix.py
lines 563-570 and 692-699): a latitude or longitude whose Python `str()` is
exactly `"0.0"` is replaced by the float `0.0001`; any other value, `None`
included, passes through unchanged. -/
def normalizeCoord (v : Option PyNum) : Option PyNum :=
  if pyOptNumStr v = "0.0" then some (.float "0.0001") else v

/-- `ConvertCtipInfectedToStix` (dcuctipapi2stix.py lines 481-617), in the
`Except` monad: a missing key or a `None` where the script needs a value
raises, and the raise propagates to `ProcessCtipData`'s per-record handler. -/
def ConvertCtipInfectedToStix (r : CtipRecord) : Except ConvErr (List StixObj) := do
  let dtOpt ← r.DateTimeReceivedUtc.get
  let objStixCtipTimestamp ← GetStixTimestamp dtOpt
  let ctipThreatConfidence ← reqStr (← r.ThreatConfidence.get)
  let threatConfidenceInfo := GetThreatConfidenceInfoInfected ctipThreatConfidence
  let ctipTlp ← reqStr (← r.TLP.get)
  let stixCtipTlp := GetTlpInfo ctipTlp
  let malwareOpt ← r.Malware.get
  let threatCodeOpt ← r.ThreatCode.get
  let dataFeed ← reqStr (← r.DataFeed.get)
  let sourcedFrom ← reqStr (← r.SourcedFrom.get)
  let srcIpOpt ← r.SourceIp.get
  let ioc := StixObj.indicator
    (pyFStr malwareOpt ++ "." ++ pyFStr threatCodeOpt)
    (pyFStr malwareOpt ++ " infected IP")
    ["DataSet: " ++ dataFeed, "SourcedFrom: " ++ sourcedFrom, stixCtipTlp.1,
      "ThreatConfidence: " ++ ctipThreatConfidence]
    threatConfidenceInfo.1 [threatConfidenceInfo.2] "stix"
    ("[ipv4-addr:value = \x27" ++ pyFStr srcIpOpt ++ "\x27]")
    objStixCtipTimestamp stixCtipTlp.2
  let mw := StixObj.malware malwareOpt
    ("DCU CTIP ThreatCode: " ++ pyFStr threatCodeOpt) true
  let dstIpOpt ← r.DestinationIp.get
  let srcIP := StixObj.ipv4 srcIpOpt
  let dstIP := StixObj.ipv4 dstIpOpt
  let httpMethodOpt ← r.HttpMethod.get
  let httpRequestOpt ← r.HttpRequest.get
  let httpVersionOpt ← r.HttpVersion.get
  let httpHostOpt ← r.HttpHost.get
  let httpUserAgentOpt ← r.HttpUserAgent.get
  let httpReferrerOpt ← r.HttpReferrer.get
  let httpreq : HttpReqExt :=
    { requestMethod := some (pyOrEmptyLower httpMethodOpt),
      requestValue := some (pyOrEmpty httpRequestOpt),
      requestVersion := some (pyOrEmptyLower httpVersionOpt),
      headerHost := some (pyOrEmpty httpHostOpt),
      headerUserAgent := some (pyOrEmpty httpUserAgentOpt),
      headerReferer := some (pyOrEmpty httpReferrerOpt) }
  let srcPortOpt ← r.SourcePort.get
  let dstPortOpt ← r.DestinationPort.get
  let nt := StixObj.networkTraffic srcIpOpt srcPortOpt dstIpOpt dstPortOpt httpreq
    objStixCtipTimestamp [GetHttpProtocol dstPortOpt]
  let asnNumberOpt ← r.SourceIpAsnNumber.get
  let asnOrgOpt ← r.SourceIpAsnOrgName.get
  let asn := StixObj.autonomousSystem (pyOrZero asnNumberOpt) (pyOrEmpty asnOrgOpt)
  let latOpt ← r.SourceIpLatitude.get
  let lonOpt ← r.SourceIpLongitude.get
  let fLatitude := normalizeCoord latOpt
  let fLongitude := normalizeCoord lonOpt
  let countryOpt ← r.SourceIpCountryCode.get
  let regionOpt ← r.SourceIpRegion.get
  let cityOpt ← r.SourceIpCity.get
  let loc := StixObj.location fLatitude fLongitude
    (pyOrEmpty countryOpt) (pyOrEmpty regionOpt) (pyOrEmpty cityOpt)
  let cf1Opt ← r.CustomField1.get
  let custom1 := StixObj.note
    (pyFStr malwareOpt ++ "." ++ pyFStr threatCodeOpt ++ ".CustomField1")
    (pyOrEmpty cf1Opt) [ioc, nt]
  let cf2Opt ← r.CustomField2.get
  let custom2 := StixObj.note
    (pyFStr malwareOpt ++ "." ++ pyFStr threatCodeOpt ++ ".CustomField2")
    (pyOrEmpty cf2Opt) [ioc, nt]
  let cf3Opt ← r.CustomField3.get
  let custom3 := StixObj.note
    (pyFStr malwareOpt ++ "." ++ pyFStr threatCodeOpt ++ ".CustomField3")
    (pyOrEmpty cf3Opt) [ioc, nt]
  let cf4Opt ← r.CustomField4.get
  let custom4 := StixObj.note
    (pyFStr malwareOpt ++ "." ++ pyFStr threatCodeOpt ++ ".CustomField4")
    (pyOrEmpty cf4Opt) [ioc, nt]
  let cf5Opt ← r.CustomField5.get
  let custom5 := StixObj.note
    (pyFStr malwareOpt ++ "." ++ pyFStr threatCodeOpt ++ ".CustomField5")
    (pyOrEmpty cf5Opt) [ioc, nt]
  let payloadOpt ← r.Payload.get
  let payload := StixObj.note
    (pyFStr malwareOpt ++ "." ++ pyFStr threatCodeOpt ++ ".Payload")
    (pyOrEmpty payloadOpt) [ioc, nt]
  return [ioc, mw, nt, srcIP, dstIP, asn, loc,
          custom1, custom2, custom3, custom4, custom5, payload]

/-- The body of the trailing `try` of `ConvertCtipC2ToStix`
(dcuctipapi2stix.py lines 737-743): build a `stix2.File` from
`objCtipData['Signatures']['Sha256']`.  An absent key or a null value
raises; the stix2 library's rejection of an invalid SHA-256 is modelled by
the length-64 test its comment describes. -/
def c2FileObj (malwareOpt : Option String) (r : CtipRecord) : Except ConvErr StixObj := do
  let malwareName ← reqStr malwareOpt
  let sig ← reqSig (← r.Signatures.get)
  let sha ← reqStr (← sig.Sha256.get)
  if sha.length = 64 then
    pure (StixObj.file (malwareName ++ " originating malware binary") sha)
  else
    throw ConvErr.valueError

/-- `ConvertCtipC2ToStix` (dcuctipapi2stix.py lines 619-750).  The trailing
`try` builds a `stix2.File` from `Signatures.Sha256` (see `c2FileObj`) and
returns the bundle with the file object; any failure there is caught and the
bundle is returned without the file object. -/
def ConvertCtipC2ToStix (r : CtipRecord) : Except ConvErr (List StixObj) := do
  let dtOpt ← r.DateTimeReceivedUtc.get
  let objStixCtipTimestamp ← GetStixTimestamp dtOpt
  let ctipThreatConfidence ← reqStr (← r.ThreatConfidence.get)
  let threatConfidenceInfo := GetThreatConfidenceInfoC2 ctipThreatConfidence
  let ctipTlp ← reqStr (← r.TLP.get)
  let stixCtipTlp := GetTlpInfo ctipTlp
  let malwareOpt ← r.Malware.get
  let threatCodeOpt ← r.ThreatCode.get
  let dataFeed ← reqStr (← r.DataFeed.get)
  let sourcedFrom ← reqStr (← r.SourcedFrom.get)
  let infra := StixObj.infrastructure
    (pyFStr malwareOpt ++ "." ++ pyFStr threatCodeOpt)
    (pyFStr malwareOpt ++ " C2")
    ["DataSet: " ++ dataFeed, "SourcedFrom: " ++ sourcedFrom, stixCtipTlp.1,
      "ThreatConfidence: " ++ ctipThreatConfidence]
    threatConfidenceInfo.1 [threatConfidenceInfo.2]
    objStixCtipTimestamp stixCtipTlp.2
  let mw := StixObj.malware malwareOpt
    ("DCU CTIP ThreatCode: " ++ pyFStr threatCodeOpt) true
  let dstIpOpt ← r.DestinationIp.get
  let dstIP := StixObj.ipv4 dstIpOpt
  let httpRequestOpt ← r.HttpRequest.get
  let httpDomainOpt ← r.HttpDomain.get
  let httpreq : HttpReqExt :=
    { requestMethod := some "",
      requestValue := httpRequestOpt,
      requestVersion := none,
      headerHost := httpDomainOpt,
      headerUserAgent := none,
      headerReferer := none }
  let dstPortOpt ← r.DestinationPort.get
  let nt := StixObj.networkTraffic none none dstIpOpt dstPortOpt httpreq
    objStixCtipTimestamp [GetHttpProtocol dstPortOpt]
  let asnNumberOpt ← r.DestinationIpAsnNumber.get
  let asnOrgOpt ← r.DestinationIpAsnOrgName.get
  let asn := StixObj.autonomousSystem (pyOrZero asnNumberOpt) (pyOrEmpty asnOrgOpt)
  let latOpt ← r.DestinationIpLatitude.get
  let lonOpt ← r.DestinationIpLongitude.get
  let fLatitude := normalizeCoord latOpt
  let fLongitude := normalizeCoord lonOpt
  let countryOpt ← r.DestinationIpCountryCode.get
  let regionOpt ← r.DestinationIpRegion.get
  let cityOpt ← r.DestinationIpCity.get
  let loc := StixObj.location fLatitude fLongitude
    (pyOrEmpty countryOpt) (pyOrEmpty regionOpt) (pyOrEmpty cityOpt)
  let cf1Opt ← r.CustomField1.get
  let custom1 := StixObj.note
    (pyFStr malwareOpt ++ "." ++ pyFStr threatCodeOpt ++ ".CustomField1")
    (pyOrEmpty cf1Opt) [infra, nt]
  let cf2Opt ← r.CustomField2.get
  let custom2 := StixObj.note
    (pyFStr malwareOpt ++ "." ++ pyFStr threatCodeOpt ++ ".CustomField2")
    (pyOrEmpty cf2Opt) [infra, nt]
  let cf3Opt ← r.CustomField3.get
  let custom3 := StixObj.note
    (pyFStr malwareOpt ++ "." ++ pyFStr threatCodeOpt ++ ".CustomField3")
    (pyOrEmpty cf3Opt) [infra, nt]
  let cf4Opt ← r.CustomField4.get
  let custom4 := StixObj.note
    (pyFStr malwareOpt ++ "." ++ pyFStr threatCodeOpt ++ ".CustomField4")
    (pyOrEmpty cf4Opt) [infra, nt]
  let cf5Opt ← r.CustomField5.get
  let custom5 := StixObj.note
    (pyFStr malwareOpt ++ "." ++ pyFStr threatCodeOpt ++ ".CustomField5")
    (pyOrEmpty cf5Opt) [infra, nt]
  match c2FileObj malwareOpt r with
  | .ok filehash =>
    return [infra, mw, nt, dstIP, asn, loc, filehash,
            custom1, custom2, custom3, custom4, custom5]
  | .error _ =>
    return [infra, mw, nt, dstIP, asn, loc,
            custom1, custom2, custom3, custom4, custom5]

/-- The per-record conversion loop of `ProcessCtipData`
(dcuctipapi2stix.py lines 304-337 and 347-379): each record is converted
inside a `try`; on success the bundle is appended to `stixData`, on any
exception the record is logged and skipped and the loop continues. -/
def convertRecords (convert : CtipRecord → Except ConvErr (List StixObj)) :
    List CtipRecord → List (List StixObj)
  | [] => []
  | r :: rs =>
    match convert r with
    | .ok stixCtipBundle => stixCtipBundle :: convertRecords convert rs
    | .error _ => convertRecords convert rs

/-- `ProcessCtipData` (dcuctipapi2stix.py lines 281-384): dispatches on
`config.CtipApi` and runs the per-record conversion loop; an unrecognized
dataset name leaves `stixData` empty. -/
def ProcessCtipData (ctipApi : String) (ctipData : List CtipRecord) :
    List (List StixObj) :=
  if ctipApi = CTIP_API_INFECTED then convertRecords ConvertCtipInfectedToStix ctipData
  else if ctipApi = CTIP_API_C2 then convertRecords ConvertCtipC2ToStix ctipData
  else []

/-- Return value of `dcuctipapi2stix.CtipApi` (lines 96-279): after the
download loop, `ctipStixData` is assigned from `ProcessCtipData` only when
`totalDownloadedDataCount > 0`, and the `finally` block returns
`ctipStixData`.  When a network exception is raised inside the loop, control
jumps directly to the `except` handlers, `ProcessCtipData` never runs, and
the returned list is the initial empty `ctipStixData`. -/
def CtipApiStixReturn (ctipApi : String)
    (events : List (DcuCtip.LoopEvent CtipRecord)) : List (List StixObj) :=
  match DcuCtip.fetchLoop events DcuCtip.initFetchState with
  | .halted s _ =>
    if 0 < s.totalDownloadedDataCount then ProcessCtipData ctipApi s.ctipDataDownload
    else []
  | .raised _ _ => []
  | .exhausted s =>
    if 0 < s.totalDownloadedDataCount then ProcessCtipData ctipApi s.ctipDataDownload
    else []

/-- Whether a bundled object is a `stix2.Note` annotation. -/
def isNoteObj : StixObj → Bool
  | .note _ _ _ => true
  | _ => false

/-- The annotation (`Note`) entities of a bundle. -/
def notesOf (b : List StixObj) : List StixObj := b.filter isNoteObj

/-- The `object_refs` of a `Note` (empty for other objects). -/
def noteRefs : StixObj → List StixObj
  | .note _ _ refs => refs
  | _ => []

/-- The `content` of a `Note` (empty for other objects). -/
def noteContent : StixObj → String
  | .note _ content _ => content
  | _ => ""

/-- Whether an object is the `stix2.Indicator` subject entity. -/
def isIndicatorObj : StixObj → Bool
  | .indicator _ _ _ _ _ _ _ _ _ => true
  | _ => false

/-- Whether an object is the `stix2.Infrastructure` subject entity. -/
def isInfrastructureObj : StixObj → Bool
  | .infrastructure _ _ _ _ _ _ _ => true
  | _ => false

/-- Whether an object is the `stix2.NetworkTraffic` entity. -/
def isNetworkTrafficObj : StixObj → Bool
  | .networkTraffic _ _ _ _ _ _ _ => true
  | _ => false

/-- The number of annotation entities a conversion produced. -/
def noteCount (x : Except ConvErr (List StixObj)) : Except ConvErr Nat :=
  x.map (fun b => (notesOf b).length)

/-- The latitude/longitude argument pair of a location object, when the
given bundle slot holds one. -/
def locationCoords : Option StixObj → Option (Option PyNum × Option PyNum)
  | some (.location la lo _ _ _) => some (la, lo)
  | _ => none

/-- A concrete well-formed record used to evaluate the theorems: every
required key is present, the five custom fields and the payload are JSON
null (empty), the latitudes are the JSON integer `0` and the longitudes the
JSON float `0.0`. -/
def sampleRecord : CtipRecord :=
  { DateTimeReceivedUtc := .val "2026-01-13T00:00:00Z",
    ThreatConfidence := .val "High",
    TLP := .val "Amber",
    Malware := .val "B106-Gamarue",
    ThreatCode := .val "B106",
    DataFeed := .val "CTIP-Infected",
    SourcedFrom := .val "Sinkhole",
    SourceIp := .val "203.0.113.7",
    DestinationIp := .val "198.51.100.9",
    HttpMethod := .val "GET",
    HttpRequest := .val "/gate.php",
    HttpVersion := .val "HTTP/1.1",
    HttpHost := .val "example.test",
    HttpUserAgent := .val "Mozilla/5.0",
    HttpReferrer := .null,
    HttpDomain := .val "example.test",
    SourcePort := .val 49152,
    DestinationPort := .val 80,
    SourceIpAsnNumber := .val 64500,
    SourceIpAsnOrgName := .val "EXAMPLE-AS",
    SourceIpLatitude := .val (.int 0),
    SourceIpLongitude := .val (.float "0.0"),
    SourceIpCountryCode := .val "US",
    SourceIpRegion := .val "wa",
    SourceIpCity := .val "redmond",
    DestinationIpAsnNumber := .val 64501,
    DestinationIpAsnOrgName := .val "EXAMPLE-AS-2",
    DestinationIpLatitude := .val (.int 0),
    DestinationIpLongitude := .val (.float "0.0"),
    DestinationIpCountryCode := .val "US",
    DestinationIpRegion := .val "wa",
    DestinationIpCity := .val "redmond",
    CustomField1 := .null,
    CustomField2 := .null,
    CustomField3 := .null,
    CustomField4 := .null,
    CustomField5 := .null,
    Payload := .null,
    Signatures := .val
      { Sha256 := .val
          "0123456789abcdef0123456789abcdef0123456789abcdef0123456789abcdef" } }

/-- `sampleRecord` with the `DateTimeReceivedUtc` key missing: its bracket
access raises `KeyError`, so conversion of this record fails. -/
def sampleRecordNoDate : CtipRecord :=
  { sampleRecord with DateTimeReceivedUtc := .absent }

end Dcuctipapi2stix

/-- C1 counterexample: two consecutive 429 responses (the initial response
and the first retry), then a 200 on the second retry.  The claim predicts
sleeps of 10s then 30s; the code sleeps 10s before each retry, because
`retryDelay` is multiplied only inside the `except:` handler, which runs only
when the retry request itself raises — never on a plain 429 response. -/
theorem c1_counterexample :
    (DcuCtip.runRetrySubLoop
        (fun k => if k ≤ 1 then DcuCtip.RetryOutcome.resp 429 else .resp 200)).sleeps
      = [10, 10] ∧
    (DcuCtip.runRetrySubLoop
        (fun k => if k ≤ 1 then DcuCtip.RetryOutcome.resp 429 else .resp 200)).sleeps
      ≠ [10, 30] := by
  constructor <;> decide

/-- C1 (amended): given N consecutive 429 responses with 1 ≤ N ≤ 3 followed
by a 200, the retry sub-loop retries exactly N times, sleeping the fixed
10-second base delay before every retry (the delay is multiplied by 3 only
after a retry attempt that raised a network exception, not after a 429
response), and proceeds with the 200 response. -/
theorem c1_retry_schedule (results : Nat → DcuCtip.RetryOutcome) (N : Nat)
    (h1 : 1 ≤ N) (h2 : N ≤ DcuCtip.CTIP_API_MAX_RETRIES)
    (h429 : ∀ k, 1 ≤ k → k < N → results k = .resp 429)
    (h200 : results N = .resp 200) :
    DcuCtip.runRetrySubLoop results =
      { retryAttempt := N,
        retryDelay := DcuCtip.CTIP_API_MAX_RETRY_DELAY_SECONDS,
        sleeps := List.replicate N DcuCtip.CTIP_API_MAX_RETRY_DELAY_SECONDS,
        status := 200 } := by
  have h2' : N ≤ 3 := h2
  interval_cases N
  · simp [DcuCtip.runRetrySubLoop, DcuCtip.retryRequestLoop,
      DcuCtip.CTIP_API_MAX_RETRIES, DcuCtip.CTIP_API_MAX_RETRY_DELAY_SECONDS, h200]
  · have e1 := h429 1 (by norm_num) (by norm_num)
    simp [DcuCtip.runRetrySubLoop, DcuCtip.retryRequestLoop,
      DcuCtip.CTIP_API_MAX_RETRIES, DcuCtip.CTIP_API_MAX_RETRY_DELAY_SECONDS, e1, h200,
      List.replicate]
  · have e1 := h429 1 (by norm_num) (by norm_num)
    have e2 := h429 2 (by norm_num) (by norm_num)
    simp [DcuCtip.runRetrySubLoop, DcuCtip.retryRequestLoop,
      DcuCtip.CTIP_API_MAX_RETRIES, DcuCtip.CTIP_API_MAX_RETRY_DELAY_SECONDS, e1, e2, h200,
      List.replicate]

/-- C1 witness: the amended schedule evaluated at N = 2. -/
theorem c1_retry_schedule_witness :
    DcuCtip.runRetrySubLoop
        (fun k => if k ≤ 1 then DcuCtip.RetryOutcome.resp 429 else .resp 200)
      = { retryAttempt := 2, retryDelay := 10, sleeps := [10, 10], status := 200 } := by
  have h := c1_retry_schedule
    (fun k => if k ≤ 1 then DcuCtip.RetryOutcome.resp 429 else .resp 200) 2
    (by norm_num) (by decide)
    (fun k hk1 hk2 => by
      have : k = 1 := by omega
      subst this
      rfl)
    rfl
  simpa using h

/-- C2 counterexample: on the trace 200(total 8, 2 records), 200(total 2,
1 record), 200(total 8, 5 records), the code's loop halts after the second
chunk — its termination test `offset > totalRowCount` compares 4 against the
SECOND chunk's header value 2, not the first chunk's 8 — leaving the third
chunk unconsumed; under the spec's capture-once reading the same trace
consumes all three chunks. -/
theorem c2_counterexample :
    DcuCtip.fetchLoop
        [DcuCtip.LoopEvent.ok 8 [1, 2], .ok 2 [3], .ok 8 [4, 5, 6, 7, 8]]
        DcuCtip.initFetchState
      = .halted { totalRowCount := 2, offset := 4, totalDownloadedDataCount := 3,
                  ctipDataDownload := [1, 2, 3] } [.ok 8 [4, 5, 6, 7, 8]] ∧
    DcuCtip.specFirstTotalLoop
        [DcuCtip.LoopEvent.ok 8 [1, 2], .ok 2 [3], .ok 8 [4, 5, 6, 7, 8]]
        DcuCtip.initFetchState
      = .halted { totalRowCount := 8, offset := 9, totalDownloadedDataCount := 8,
                  ctipDataDownload := [1, 2, 3, 4, 5, 6, 7, 8] } [] ∧
    DcuCtip.fetchLoop
        [DcuCtip.LoopEvent.ok 8 [1, 2], .ok 2 [3], .ok 8 [4, 5, 6, 7, 8]]
        DcuCtip.initFetchState
      ≠ DcuCtip.specFirstTotalLoop
        [DcuCtip.LoopEvent.ok 8 [1, 2], .ok 2 [3], .ok 8 [4, 5, 6, 7, 8]]
        DcuCtip.initFetchState := by
  refine ⟨rfl, rfl, ?_⟩
  decide

/-- C2 (amended): `totalRowCount` is re-assigned from the
`x-total-row-count` header of every 200 chunk, and the offset-exceeds-total
termination test of an iteration uses that latest value: the step on a 200
chunk is entirely independent of the previously stored `totalRowCount`, and
afterwards the stored value is the current chunk's header value. -/
theorem c2_total_row_count_reread {α : Type} (s : DcuCtip.FetchState α)
    (t t' : Nat) (rs : List α) :
    DcuCtip.fetchStep s (.ok t rs)
        = DcuCtip.fetchStep { s with totalRowCount := t' } (.ok t rs) ∧
    (DcuCtip.stepState (DcuCtip.fetchStep s (.ok t rs))).totalRowCount = t := by
  constructor
  · simp [DcuCtip.fetchStep]
  · simp only [DcuCtip.fetchStep]
    split_ifs <;> simp [DcuCtip.stepState]

/-- C3 counterexample: on a trace with one successful chunk of one record
followed by a network exception, the plain-download variant returns the one
accumulated record, but the STIX-conversion variant returns the empty list —
the record obtained before the exception is absent from its result, because
`ProcessCtipData` only runs after the loop and is skipped when the exception
jumps to the handlers. -/
theorem c3_counterexample :
    (Dcuctipapi2stix.CtipApiStixReturn Dcuctipapi2stix.CTIP_API_INFECTED
        [DcuCtip.LoopEvent.ok 10 [Dcuctipapi2stix.sampleRecord], .exc]).length = 0 ∧
    (DcuCtip.CtipApiDownload
        [DcuCtip.LoopEvent.ok 10 [Dcuctipapi2stix.sampleRecord], .exc]).length = 1 :=
  ⟨rfl, rfl⟩

/-- C3 (amended): a network exception raised during the fetch loop is caught
and does not propagate; the plain-download variant still returns exactly the
records accumulated before the exception, while the STIX-conversion variant
returns its initial empty bundle list, because the conversion step runs only
after the loop completes. -/
theorem c3_exception_returns (ctipApi : String)
    (events : List (DcuCtip.LoopEvent Dcuctipapi2stix.CtipRecord))
    (s : DcuCtip.FetchState Dcuctipapi2stix.CtipRecord)
    (rest : List (DcuCtip.LoopEvent Dcuctipapi2stix.CtipRecord))
    (h : DcuCtip.fetchLoop events DcuCtip.initFetchState = .raised s rest) :
    DcuCtip.CtipApiDownload events = s.ctipDataDownload ∧
    Dcuctipapi2stix.CtipApiStixReturn ctipApi events = [] := by
  constructor
  · simp [DcuCtip.CtipApiDownload, h, DcuCtip.fetchResultState]
  · simp [Dcuctipapi2stix.CtipApiStixReturn, h]

/-- C3 witness: the amended statement evaluated on the counterexample
trace. -/
theorem c3_exception_returns_witness :
    DcuCtip.CtipApiDownload
        [DcuCtip.LoopEvent.ok 10 [Dcuctipapi2stix.sampleRecord], .exc]
      = [Dcuctipapi2stix.sampleRecord] ∧
    Dcuctipapi2stix.CtipApiStixReturn Dcuctipapi2stix.CTIP_API_INFECTED
        [DcuCtip.LoopEvent.ok 10 [Dcuctipapi2stix.sampleRecord], .exc]
      = [] :=
  c3_exception_returns Dcuctipapi2stix.CTIP_API_INFECTED
    [DcuCtip.LoopEvent.ok 10 [Dcuctipapi2stix.sampleRecord], .exc]
    { totalRowCount := 10, offset := 2, totalDownloadedDataCount := 1,
      ctipDataDownload := [Dcuctipapi2stix.sampleRecord] }
    [] rfl

/-- Helper for C4: from a state with `offset = totalDownloadedDataCount + 1`,
a trace of nonempty 200 chunks all advertising total `T` and whose record
counts make the running count reach exactly `T` is consumed in full, and the
loop breaks on its last chunk with `offset = T + 1`. -/
theorem fetchLoop_consumes_exact {α : Type} (T : Nat) :
    ∀ (chunks : List (List α)) (s : DcuCtip.FetchState α),
      chunks ≠ [] → (∀ c ∈ chunks, c ≠ []) →
      s.offset = s.totalDownloadedDataCount + 1 →
      s.totalDownloadedDataCount + (chunks.map List.length).sum = T →
      DcuCtip.fetchLoop (chunks.map (DcuCtip.LoopEvent.ok T)) s =
        .halted { totalRowCount := T, offset := T + 1,
                  totalDownloadedDataCount := T,
                  ctipDataDownload := s.ctipDataDownload ++ chunks.flatten } [] := by
  intro chunks
  induction chunks with
  | nil => intro s h; exact absurd rfl h
  | cons c rest ih =>
    intro s _ hne hoff hsum
    have hclen : 0 < c.length := List.length_pos.mpr (hne c (by simp))
    simp only [List.map_cons, List.sum_cons] at hsum
    cases rest with
    | nil =>
      simp only [List.sum_nil, List.map_nil, Nat.add_zero] at hsum
      have hstep : DcuCtip.fetchStep s (.ok T c) = DcuCtip.StepOut.halt
          { totalRowCount := T, offset := s.offset + c.length,
            totalDownloadedDataCount := s.totalDownloadedDataCount + c.length,
            ctipDataDownload := s.ctipDataDownload ++ c } := by
        simp only [DcuCtip.fetchStep]
        rw [if_pos hclen, if_pos (show T < s.offset + c.length by omega)]
      simp only [List.map_cons, List.map_nil, DcuCtip.fetchLoop, hstep]
      have h1 : s.offset + c.length = T + 1 := by omega
      have h2 : s.totalDownloadedDataCount + c.length = T := by omega
      simp [h1, h2]
    | cons c2 rest2 =>
      have hc2 : 0 < c2.length := List.length_pos.mpr (hne c2 (by simp))
      simp only [List.map_cons, List.sum_cons] at hsum
      have hstep : DcuCtip.fetchStep s (.ok T c) = DcuCtip.StepOut.next
          { totalRowCount := T, offset := s.offset + c.length,
            totalDownloadedDataCount := s.totalDownloadedDataCount + c.length,
            ctipDataDownload := s.ctipDataDownload ++ c } := by
        simp only [DcuCtip.fetchStep]
        rw [if_pos hclen, if_neg (show ¬ T < s.offset + c.length by omega)]
      have hrec := ih
        { totalRowCount := T, offset := s.offset + c.length,
          totalDownloadedDataCount := s.totalDownloadedDataCount + c.length,
          ctipDataDownload := s.ctipDataDownload ++ c }
        (by simp)
        (fun x hx => hne x (List.mem_cons_of_mem c hx))
        (by simp; omega)
        (by simp only [List.map_cons, List.sum_cons]; omega)
      simp only [List.map_cons, DcuCtip.fetchLoop, hstep]
      simp only [List.map_cons, DcuCtip.fetchLoop] at hrec
      rw [hrec]
      simp [List.append_assoc]

/-- C4 counterexample: the chunk sequence `[[], [1,2,3,4,5]]` has record
counts summing exactly to the advertised total 5, yet the loop halts at the
empty first chunk with 0 records accumulated and the second chunk never
consumed. -/
theorem c4_counterexample :
    (([[], [1, 2, 3, 4, 5]] : List (List Nat)).map List.length).sum = 5 ∧
    DcuCtip.fetchLoop (([[], [1, 2, 3, 4, 5]] : List (List Nat)).map
        (DcuCtip.LoopEvent.ok 5)) DcuCtip.initFetchState
      = .halted { totalRowCount := 5, offset := 1, totalDownloadedDataCount := 0,
                  ctipDataDownload := [] } [.ok 5 [1, 2, 3, 4, 5]] ∧
    (0 : Nat) ≠ 5 := by
  refine ⟨rfl, rfl, by decide⟩

/-- C4 (amended): for any sequence of NONEMPTY 200 chunks whose record
counts sum exactly to the advertised (positive) total-row-count, the fetch
loop terminates after consuming all the chunks (no trace remains), and the
accumulated records are exactly their concatenation, of length the
total-row-count; the final offset is total + 1. -/
theorem c4_pagination_termination {α : Type} (chunks : List (List α)) (T : Nat)
    (hne : ∀ c ∈ chunks, c ≠ []) (hsum : (chunks.map List.length).sum = T)
    (hT : 0 < T) :
    DcuCtip.fetchLoop (chunks.map (DcuCtip.LoopEvent.ok T)) DcuCtip.initFetchState =
      .halted { totalRowCount := T, offset := T + 1,
                totalDownloadedDataCount := T,
                ctipDataDownload := chunks.flatten } [] ∧
    chunks.flatten.length = T := by
  have hch : chunks ≠ [] := by
    rintro rfl
    simp at hsum
    omega
  have h := fetchLoop_consumes_exact T chunks DcuCtip.initFetchState hch hne rfl
    (by simpa [DcuCtip.initFetchState] using hsum)
  constructor
  · simpa [DcuCtip.initFetchState] using h
  · rw [List.length_flatten]
    simpa using hsum

/-- C4 witness: the spec's scenario — total-row-count 5 and a single chunk
of 5 records: one fetch, offset becomes 6, 6 > 5 stops the loop, accumulated
count 5. -/
theorem c4_pagination_termination_witness :
    DcuCtip.fetchLoop ([[1, 2, 3, 4, 5]].map (DcuCtip.LoopEvent.ok 5))
        DcuCtip.initFetchState
      = .halted { totalRowCount := 5, offset := 6, totalDownloadedDataCount := 5,
                  ctipDataDownload := [1, 2, 3, 4, 5] } [] ∧
    ([[1, 2, 3, 4, 5]] : List (List Nat)).flatten.length = 5 :=
  c4_pagination_termination [[1, 2, 3, 4, 5]] 5 (by decide) (by decide) (by decide)

/-- C8: an HTTP 200 chunk that decodes to zero records halts the loop from
any state, whatever the offset-vs-total comparison would say; the state is
unchanged except that `totalRowCount` is re-read from the chunk's header —
the accumulator and the counters are untouched. -/
theorem c8_zero_chunk_termination {α : Type} (s : DcuCtip.FetchState α) (t : Nat)
    (es : List (DcuCtip.LoopEvent α)) :
    DcuCtip.fetchStep s (.ok t []) = .halt { s with totalRowCount := t } ∧
    DcuCtip.fetchLoop (.ok t [] :: es) s = .halted { s with totalRowCount := t } es := by
  have hstep : DcuCtip.fetchStep s (.ok t []) =
      DcuCtip.StepOut.halt { s with totalRowCount := t } := by
    simp [DcuCtip.fetchStep]
  exact ⟨hstep, by simp only [DcuCtip.fetchLoop, hstep]⟩

/-- C9: in the TSF variant the loop offset advances by
`downloadedDataCount`, the row count decoded from the HTTP response body;
the saved-to-file row count has no influence on the step at all (for either
value of the save flag), and the plain variants likewise advance the offset
by the decoded chunk length. -/
theorem c9_offset_advance {α : Type} (save : Bool) (s : Dcuctiptsfapi.TsfState)
    (t dc sc sc' : Nat) (s' : DcuCtip.FetchState α) (t' : Nat) (rs : List α) :
    (DcuCtip.stepState (Dcuctiptsfapi.tsfFetchStep save s (.ok t dc sc))).offset
        = s.offset + dc ∧
    Dcuctiptsfapi.tsfFetchStep save s (.ok t dc sc)
        = Dcuctiptsfapi.tsfFetchStep save s (.ok t dc sc') ∧
    (DcuCtip.stepState (DcuCtip.fetchStep s' (.ok t' rs))).offset
        = s'.offset + rs.length := by
  refine ⟨?_, rfl, ?_⟩
  · simp only [Dcuctiptsfapi.tsfFetchStep]
    split_ifs <;> simp only [DcuCtip.stepState] <;> omega
  · simp only [DcuCtip.fetchStep]
    split_ifs <;> simp only [DcuCtip.stepState] <;> omega

/-- Inversion of a successful `Except` bind: both stages succeeded. -/
theorem exceptBindOk {ε A B : Type} {x : Except ε A} {f : A → Except ε B} {b : B}
    (h : x >>= f = Except.ok b) : ∃ a, x = .ok a ∧ f a = .ok b := by
  cases x with
  | ok a => exact ⟨a, rfl, h⟩
  | error e => exact Except.noConfusion h

/-- Shape of a successful infected-record conversion: the bundle is the
thirteen objects of `ConvertCtipInfectedToStix` in order — indicator,
malware, network-traffic, two IPv4 addresses, autonomous-system, location,
then six notes whose `object_refs` are the indicator and the network-traffic
objects — with the location built from the normalized coordinates of the
record's latitude/longitude fields. -/
theorem convertInfected_shape (r : Dcuctipapi2stix.CtipRecord)
    (b : List Dcuctipapi2stix.StixObj)
    (h : Dcuctipapi2stix.ConvertCtipInfectedToStix r = .ok b) :
    ∃ ioc mw nt sIP dIP asn latOpt lonOpt ctry reg city
      a1 c1 a2 c2 a3 c3 a4 c4 a5 c5 ap cp,
      b = [ioc, mw, nt, sIP, dIP, asn,
           .location (Dcuctipapi2stix.normalizeCoord latOpt)
             (Dcuctipapi2stix.normalizeCoord lonOpt) ctry reg city,
           .note a1 c1 [ioc, nt], .note a2 c2 [ioc, nt], .note a3 c3 [ioc, nt],
           .note a4 c4 [ioc, nt], .note a5 c5 [ioc, nt], .note ap cp [ioc, nt]] ∧
      Dcuctipapi2stix.isIndicatorObj ioc = true ∧
      Dcuctipapi2stix.isNetworkTrafficObj nt = true ∧
      Dcuctipapi2stix.isNoteObj ioc = false ∧
      Dcuctipapi2stix.isNoteObj mw = false ∧
      Dcuctipapi2stix.isNoteObj nt = false ∧
      Dcuctipapi2stix.isNoteObj sIP = false ∧
      Dcuctipapi2stix.isNoteObj dIP = false ∧
      Dcuctipapi2stix.isNoteObj asn = false ∧
      r.SourceIpLatitude.get = .ok latOpt ∧
      r.SourceIpLongitude.get = .ok lonOpt := by
  unfold Dcuctipapi2stix.ConvertCtipInfectedToStix at h
  obtain ⟨dtOpt, hv1, h⟩ := exceptBindOk h
  obtain ⟨ts, hv2, h⟩ := exceptBindOk h
  obtain ⟨tcOpt, hv3, h⟩ := exceptBindOk h
  obtain ⟨tcS, hv4, h⟩ := exceptBindOk h
  obtain ⟨tlpOpt, hv5, h⟩ := exceptBindOk h
  obtain ⟨tlpS, hv6, h⟩ := exceptBindOk h
  obtain ⟨malOpt, hv7, h⟩ := exceptBindOk h
  obtain ⟨codeOpt, hv8, h⟩ := exceptBindOk h
  obtain ⟨dfOpt, hv9, h⟩ := exceptBindOk h
  obtain ⟨dataFeed, hv10, h⟩ := exceptBindOk h
  obtain ⟨sfOpt, hv11, h⟩ := exceptBindOk h
  obtain ⟨sourcedFrom, hv12, h⟩ := exceptBindOk h
  obtain ⟨srcIpOpt, hv13, h⟩ := exceptBindOk h
  obtain ⟨dstIpOpt, hv14, h⟩ := exceptBindOk h
  obtain ⟨mOpt, hv15, h⟩ := exceptBindOk h
  obtain ⟨reqOpt, hv16, h⟩ := exceptBindOk h
  obtain ⟨verOpt, hv17, h⟩ := exceptBindOk h
  obtain ⟨hostOpt, hv18, h⟩ := exceptBindOk h
  obtain ⟨uaOpt, hv19, h⟩ := exceptBindOk h
  obtain ⟨refOpt, hv20, h⟩ := exceptBindOk h
  obtain ⟨spOpt, hv21, h⟩ := exceptBindOk h
  obtain ⟨dpOpt, hv22, h⟩ := exceptBindOk h
  obtain ⟨asnNumOpt, hv23, h⟩ := exceptBindOk h
  obtain ⟨asnOrgOpt, hv24, h⟩ := exceptBindOk h
  obtain ⟨latOpt, hv25, h⟩ := exceptBindOk h
  obtain ⟨lonOpt, hv26, h⟩ := exceptBindOk h
  obtain ⟨ctryOpt, hv27, h⟩ := exceptBindOk h
  obtain ⟨regOpt, hv28, h⟩ := exceptBindOk h
  obtain ⟨cityOpt, hv29, h⟩ := exceptBindOk h
  obtain ⟨cf1Opt, hv30, h⟩ := exceptBindOk h
  obtain ⟨cf2Opt, hv31, h⟩ := exceptBindOk h
  obtain ⟨cf3Opt, hv32, h⟩ := exceptBindOk h
  obtain ⟨cf4Opt, hv33, h⟩ := exceptBindOk h
  obtain ⟨cf5Opt, hv34, h⟩ := exceptBindOk h
  obtain ⟨plOpt, hv35, h⟩ := exceptBindOk h
  have hb := Except.ok.inj h
  subst hb
  exact ⟨_, _, _, _, _, _, latOpt, lonOpt, _, _, _, _, _, _, _, _, _, _, _, _, _, _, _,
    rfl, rfl, rfl, rfl, rfl, rfl, rfl, rfl, rfl, hv25, hv26⟩

/-- Shape of a successful C2-record conversion: the bundle is
infrastructure, malware, network-traffic, IPv4 address, autonomous-system,
location, optionally a file object (when the `Signatures.Sha256` `try`
succeeded), then five notes whose `object_refs` are the infrastructure and
the network-traffic objects — with the location built from the normalized
coordinates of the record's latitude/longitude fields. -/
theorem convertC2_shape (r : Dcuctipapi2stix.CtipRecord)
    (b : List Dcuctipapi2stix.StixObj)
    (h : Dcuctipapi2stix.ConvertCtipC2ToStix r = .ok b) :
    ∃ infra mw nt dIP asn latOpt lonOpt ctry reg city
      a1 c1 a2 c2 a3 c3 a4 c4 a5 c5,
      (b = [infra, mw, nt, dIP, asn,
            .location (Dcuctipapi2stix.normalizeCoord latOpt)
              (Dcuctipapi2stix.normalizeCoord lonOpt) ctry reg city,
            .note a1 c1 [infra, nt], .note a2 c2 [infra, nt],
            .note a3 c3 [infra, nt], .note a4 c4 [infra, nt],
            .note a5 c5 [infra, nt]] ∨
       ∃ fname fsha, b = [infra, mw, nt, dIP, asn,
            .location (Dcuctipapi2stix.normalizeCoord latOpt)
              (Dcuctipapi2stix.normalizeCoord lonOpt) ctry reg city,
            .file fname fsha,
            .note a1 c1 [infra, nt], .note a2 c2 [infra, nt],
            .note a3 c3 [infra, nt], .note a4 c4 [infra, nt],
            .note a5 c5 [infra, nt]]) ∧
      Dcuctipapi2stix.isInfrastructureObj infra = true ∧
      Dcuctipapi2stix.isNetworkTrafficObj nt = true ∧
      Dcuctipapi2stix.isNoteObj infra = false ∧
      Dcuctipapi2stix.isNoteObj mw = false ∧
      Dcuctipapi2stix.isNoteObj nt = false ∧
      Dcuctipapi2stix.isNoteObj dIP = false ∧
      Dcuctipapi2stix.isNoteObj asn = false ∧
      r.DestinationIpLatitude.get = .ok latOpt ∧
      r.DestinationIpLongitude.get = .ok lonOpt := by
  unfold Dcuctipapi2stix.ConvertCtipC2ToStix at h
  obtain ⟨dtOpt, hv1, h⟩ := exceptBindOk h
  obtain ⟨ts, hv2, h⟩ := exceptBindOk h
  obtain ⟨tcOpt, hv3, h⟩ := exceptBindOk h
  obtain ⟨tcS, hv4, h⟩ := exceptBindOk h
  obtain ⟨tlpOpt, hv5, h⟩ := exceptBindOk h
  obtain ⟨tlpS, hv6, h⟩ := exceptBindOk h
  obtain ⟨malOpt, hv7, h⟩ := exceptBindOk h
  obtain ⟨codeOpt, hv8, h⟩ := exceptBindOk h
  obtain ⟨dfOpt, hv9, h⟩ := exceptBindOk h
  obtain ⟨dataFeed, hv10, h⟩ := exceptBindOk h
  obtain ⟨sfOpt, hv11, h⟩ := exceptBindOk h
  obtain ⟨sourcedFrom, hv12, h⟩ := exceptBindOk h
  obtain ⟨dstIpOpt, hv13, h⟩ := exceptBindOk h
  obtain ⟨reqOpt, hv14, h⟩ := exceptBindOk h
  obtain ⟨domOpt, hv15, h⟩ := exceptBindOk h
  obtain ⟨dpOpt, hv16, h⟩ := exceptBindOk h
  obtain ⟨asnNumOpt, hv17, h⟩ := exceptBindOk h
  obtain ⟨asnOrgOpt, hv18, h⟩ := exceptBindOk h
  obtain ⟨latOpt, hv19, h⟩ := exceptBindOk h
  obtain ⟨lonOpt, hv20, h⟩ := exceptBindOk h
  obtain ⟨ctryOpt, hv21, h⟩ := exceptBindOk h
  obtain ⟨regOpt, hv22, h⟩ := exceptBindOk h
  obtain ⟨cityOpt, hv23, h⟩ := exceptBindOk h
  obtain ⟨cf1Opt, hv24, h⟩ := exceptBindOk h
  obtain ⟨cf2Opt, hv25, h⟩ := exceptBindOk h
  obtain ⟨cf3Opt, hv26, h⟩ := exceptBindOk h
  obtain ⟨cf4Opt, hv27, h⟩ := exceptBindOk h
  obtain ⟨cf5Opt, hv28, h⟩ := exceptBindOk h
  cases hft : Dcuctipapi2stix.c2FileObj malOpt r with
  | ok f =>
    rw [hft] at h
    have hb := Except.ok.inj h
    subst hb
    unfold Dcuctipapi2stix.c2FileObj at hft
    obtain ⟨mwName, hw1, hft⟩ := exceptBindOk hft
    obtain ⟨sigOpt, hw2, hft⟩ := exceptBindOk hft
    obtain ⟨sig, hw3, hft⟩ := exceptBindOk hft
    obtain ⟨shaOpt, hw4, hft⟩ := exceptBindOk hft
    obtain ⟨sha, hw5, hft⟩ := exceptBindOk hft
    split at hft
    · have hf := Except.ok.inj hft
      subst hf
      exact ⟨_, _, _, _, _, latOpt, lonOpt, _, _, _, _, _, _, _, _, _, _, _, _, _,
        Or.inr ⟨_, _, rfl⟩, rfl, rfl, rfl, rfl, rfl, rfl, rfl, hv19, hv20⟩
    · exact Except.noConfusion hft
  | error e =>
    rw [hft] at h
    have hb := Except.ok.inj h
    subst hb
    exact ⟨_, _, _, _, _, latOpt, lonOpt, _, _, _, _, _, _, _, _, _, _, _, _, _,
      Or.inl rfl, rfl, rfl, rfl, rfl, rfl, rfl, rfl, hv19, hv20⟩

/-- C5 counterexample: `sampleRecord` has all five custom fields and the
payload field empty (JSON null), yet its C2 conversion still produces five
annotations and its infected conversion six — all with empty content —
where the claim predicts that no annotation is produced for an empty custom
field. -/
theorem c5_counterexample :
    Dcuctipapi2stix.noteCount
        (Dcuctipapi2stix.ConvertCtipC2ToStix Dcuctipapi2stix.sampleRecord)
      = .ok 5 ∧
    Dcuctipapi2stix.noteCount
        (Dcuctipapi2stix.ConvertCtipInfectedToStix Dcuctipapi2stix.sampleRecord)
      = .ok 6 ∧
    (Dcuctipapi2stix.ConvertCtipC2ToStix Dcuctipapi2stix.sampleRecord).map
        (fun b => (Dcuctipapi2stix.notesOf b).map Dcuctipapi2stix.noteContent)
      = .ok ["", "", "", "", ""] :=
  ⟨rfl, rfl, rfl⟩

/-- A `note` object is an annotation. -/
theorem isNoteObj_note (a c : String) (refs : List Dcuctipapi2stix.StixObj) :
    Dcuctipapi2stix.isNoteObj (.note a c refs) = true := rfl

/-- A `location` object is not an annotation. -/
theorem isNoteObj_location (la lo : Option Dcuctipapi2stix.PyNum) (x y z : String) :
    Dcuctipapi2stix.isNoteObj (.location la lo x y z) = false := rfl

/-- A `file` object is not an annotation. -/
theorem isNoteObj_file (n s : String) :
    Dcuctipapi2stix.isNoteObj (.file n s) = false := rfl

/-- C5 (amended): for every record it converts, the mapper constructs one
annotation per custom field unconditionally — five in total, with content
`''` when the field is empty — plus, for infected-host records only, a sixth
annotation for the Payload field; each annotation cross-references the
primary subject entity (indicator or infrastructure, at bundle slot 0) and
the network-traffic entity (bundle slot 2). -/
theorem c5_annotations (r : Dcuctipapi2stix.CtipRecord) :
    (∀ b, Dcuctipapi2stix.ConvertCtipInfectedToStix r = .ok b →
      ∃ subj ntE, b.get? 0 = some subj ∧ b.get? 2 = some ntE ∧
        Dcuctipapi2stix.isIndicatorObj subj = true ∧
        Dcuctipapi2stix.isNetworkTrafficObj ntE = true ∧
        (Dcuctipapi2stix.notesOf b).length = 6 ∧
        ∀ x ∈ Dcuctipapi2stix.notesOf b,
          Dcuctipapi2stix.noteRefs x = [subj, ntE]) ∧
    (∀ b, Dcuctipapi2stix.ConvertCtipC2ToStix r = .ok b →
      ∃ subj ntE, b.get? 0 = some subj ∧ b.get? 2 = some ntE ∧
        Dcuctipapi2stix.isInfrastructureObj subj = true ∧
        Dcuctipapi2stix.isNetworkTrafficObj ntE = true ∧
        (Dcuctipapi2stix.notesOf b).length = 5 ∧
        ∀ x ∈ Dcuctipapi2stix.notesOf b,
          Dcuctipapi2stix.noteRefs x = [subj, ntE]) := by
  constructor
  · intro b h
    obtain ⟨ioc, mw, nt, sIP, dIP, asn, latOpt, lonOpt, ctry, reg, city,
      a1, c1, a2, c2, a3, c3, a4, c4, a5, c5, ap, cp,
      hb, hIoc, hNt, hn1, hn2, hn3, hn4, hn5, hn6, -, -⟩ :=
      convertInfected_shape r b h
    subst hb
    refine ⟨ioc, nt, rfl, rfl, hIoc, hNt, ?_, ?_⟩
    · simp [Dcuctipapi2stix.notesOf, List.filter_cons, hn1, hn2, hn3, hn4, hn5, hn6,
        isNoteObj_note, isNoteObj_location, isNoteObj_file]
    · intro x hx
      simp only [Dcuctipapi2stix.notesOf, List.mem_filter, List.mem_cons,
        List.not_mem_nil, or_false] at hx
      obtain ⟨hmem, hnote⟩ := hx
      rcases hmem with rfl|rfl|rfl|rfl|rfl|rfl|rfl|rfl|rfl|rfl|rfl|rfl|rfl <;>
        first
          | rfl
          | simp_all [isNoteObj_note, isNoteObj_location, isNoteObj_file]
  · intro b h
    obtain ⟨infra, mw, nt, dIP, asn, latOpt, lonOpt, ctry, reg, city,
      a1, c1, a2, c2, a3, c3, a4, c4, a5, c5,
      hb, hInf, hNt, hn1, hn2, hn3, hn4, hn5, -, -⟩ :=
      convertC2_shape r b h
    rcases hb with hb | ⟨fname, fsha, hb⟩ <;> subst hb
    · refine ⟨infra, nt, rfl, rfl, hInf, hNt, ?_, ?_⟩
      · simp [Dcuctipapi2stix.notesOf, List.filter_cons, hn1, hn2, hn3, hn4, hn5,
          isNoteObj_note, isNoteObj_location, isNoteObj_file]
      · intro x hx
        simp only [Dcuctipapi2stix.notesOf, List.mem_filter, List.mem_cons,
          List.not_mem_nil, or_false] at hx
        obtain ⟨hmem, hnote⟩ := hx
        rcases hmem with rfl|rfl|rfl|rfl|rfl|rfl|rfl|rfl|rfl|rfl|rfl <;>
          first
            | rfl
            | simp_all [isNoteObj_note, isNoteObj_location, isNoteObj_file]
    · refine ⟨infra, nt, rfl, rfl, hInf, hNt, ?_, ?_⟩
      · simp [Dcuctipapi2stix.notesOf, List.filter_cons, hn1, hn2, hn3, hn4, hn5,
          isNoteObj_note, isNoteObj_location, isNoteObj_file]
      · intro x hx
        simp only [Dcuctipapi2stix.notesOf, List.mem_filter, List.mem_cons,
          List.not_mem_nil, or_false] at hx
        obtain ⟨hmem, hnote⟩ := hx
        rcases hmem with rfl|rfl|rfl|rfl|rfl|rfl|rfl|rfl|rfl|rfl|rfl|rfl <;>
          first
            | rfl
            | simp_all [isNoteObj_note, isNoteObj_location, isNoteObj_file]

/-- C5 witness: the amended statement evaluated on `sampleRecord`. -/
theorem c5_annotations_witness :
    (Dcuctipapi2stix.notesOf
        ((Dcuctipapi2stix.ConvertCtipInfectedToStix
            Dcuctipapi2stix.sampleRecord).toOption.getD [])).length = 6 ∧
    (Dcuctipapi2stix.notesOf
        ((Dcuctipapi2stix.ConvertCtipC2ToStix
            Dcuctipapi2stix.sampleRecord).toOption.getD [])).length = 5 := by
  have h := c5_annotations Dcuctipapi2stix.sampleRecord
  obtain ⟨-, -, -, -, -, -, hlen1, -⟩ :=
    h.1 ((Dcuctipapi2stix.ConvertCtipInfectedToStix
      Dcuctipapi2stix.sampleRecord).toOption.getD []) rfl
  obtain ⟨-, -, -, -, -, -, hlen2, -⟩ :=
    h.2 ((Dcuctipapi2stix.ConvertCtipC2ToStix
      Dcuctipapi2stix.sampleRecord).toOption.getD []) rfl
  exact ⟨hlen1, hlen2⟩

/-- Helper for C6: skipping one failing record splits the conversion loop
around it, leaving every other record's outcome unchanged. -/
theorem convertRecords_skip
    (convert : Dcuctipapi2stix.CtipRecord → Except Dcuctipapi2stix.ConvErr
      (List Dcuctipapi2stix.StixObj))
    (xs ys : List Dcuctipapi2stix.CtipRecord) (r : Dcuctipapi2stix.CtipRecord)
    (e : Dcuctipapi2stix.ConvErr) (h : convert r = .error e) :
    Dcuctipapi2stix.convertRecords convert (xs ++ r :: ys)
      = Dcuctipapi2stix.convertRecords convert xs
        ++ Dcuctipapi2stix.convertRecords convert ys := by
  induction xs with
  | nil => simp [Dcuctipapi2stix.convertRecords, h]
  | cons a as ih =>
    cases hc : convert a <;>
      simp [Dcuctipapi2stix.convertRecords, hc, ih]

/-- C6: if converting one record raises (here: `.error e`), that record is
excluded from the output bundle list while the records before and after it
in the same batch are processed exactly as they would be without it — for
both dataset kinds. -/
theorem c6_error_isolation (xs ys : List Dcuctipapi2stix.CtipRecord)
    (r : Dcuctipapi2stix.CtipRecord) (eInf eC2 : Dcuctipapi2stix.ConvErr) :
    (Dcuctipapi2stix.ConvertCtipInfectedToStix r = .error eInf →
      Dcuctipapi2stix.ProcessCtipData Dcuctipapi2stix.CTIP_API_INFECTED (xs ++ r :: ys)
        = Dcuctipapi2stix.ProcessCtipData Dcuctipapi2stix.CTIP_API_INFECTED xs
          ++ Dcuctipapi2stix.ProcessCtipData Dcuctipapi2stix.CTIP_API_INFECTED ys) ∧
    (Dcuctipapi2stix.ConvertCtipC2ToStix r = .error eC2 →
      Dcuctipapi2stix.ProcessCtipData Dcuctipapi2stix.CTIP_API_C2 (xs ++ r :: ys)
        = Dcuctipapi2stix.ProcessCtipData Dcuctipapi2stix.CTIP_API_C2 xs
          ++ Dcuctipapi2stix.ProcessCtipData Dcuctipapi2stix.CTIP_API_C2 ys) := by
  constructor
  · intro h
    unfold Dcuctipapi2stix.ProcessCtipData
    rw [if_pos rfl, if_pos rfl, if_pos rfl]
    exact convertRecords_skip Dcuctipapi2stix.ConvertCtipInfectedToStix xs ys r eInf h
  · intro h
    unfold Dcuctipapi2stix.ProcessCtipData
    rw [if_neg (by decide : ¬ (Dcuctipapi2stix.CTIP_API_C2
          = Dcuctipapi2stix.CTIP_API_INFECTED)), if_pos rfl,
        if_neg (by decide : ¬ (Dcuctipapi2stix.CTIP_API_C2
          = Dcuctipapi2stix.CTIP_API_INFECTED)), if_pos rfl,
        if_neg (by decide : ¬ (Dcuctipapi2stix.CTIP_API_C2
          = Dcuctipapi2stix.CTIP_API_INFECTED)), if_pos rfl]
    exact convertRecords_skip Dcuctipapi2stix.ConvertCtipC2ToStix xs ys r eC2 h

/-- C6 witness: `sampleRecordNoDate` (missing `DateTimeReceivedUtc`) fails
conversion with a `KeyError` and is dropped from a three-record batch; the
two surrounding well-formed records still produce their bundles. -/
theorem c6_error_isolation_witness :
    Dcuctipapi2stix.ConvertCtipInfectedToStix Dcuctipapi2stix.sampleRecordNoDate
      = .error .keyError ∧
    Dcuctipapi2stix.ProcessCtipData Dcuctipapi2stix.CTIP_API_INFECTED
        [Dcuctipapi2stix.sampleRecord, Dcuctipapi2stix.sampleRecordNoDate,
          Dcuctipapi2stix.sampleRecord]
      = Dcuctipapi2stix.ProcessCtipData Dcuctipapi2stix.CTIP_API_INFECTED
          [Dcuctipapi2stix.sampleRecord]
        ++ Dcuctipapi2stix.ProcessCtipData Dcuctipapi2stix.CTIP_API_INFECTED
          [Dcuctipapi2stix.sampleRecord] ∧
    Dcuctipapi2stix.ProcessCtipData Dcuctipapi2stix.CTIP_API_C2
        [Dcuctipapi2stix.sampleRecord, Dcuctipapi2stix.sampleRecordNoDate,
          Dcuctipapi2stix.sampleRecord]
      = Dcuctipapi2stix.ProcessCtipData Dcuctipapi2stix.CTIP_API_C2
          [Dcuctipapi2stix.sampleRecord]
        ++ Dcuctipapi2stix.ProcessCtipData Dcuctipapi2stix.CTIP_API_C2
          [Dcuctipapi2stix.sampleRecord] := by
  refine ⟨rfl, ?_, ?_⟩
  · exact (c6_error_isolation [Dcuctipapi2stix.sampleRecord]
      [Dcuctipapi2stix.sampleRecord] Dcuctipapi2stix.sampleRecordNoDate
      .keyError .keyError).1 rfl
  · exact (c6_error_isolation [Dcuctipapi2stix.sampleRecord]
      [Dcuctipapi2stix.sampleRecord] Dcuctipapi2stix.sampleRecordNoDate
      .keyError .keyError).2 rfl

/-- C7: the confidence mappers send (case-insensitively, via `.lower()`)
High to 85, Medium to 50, Low to 25 and anything else to 0, identically for
the two dataset kinds; the infected-host category is compromised /
malicious-activity / anomalous-activity for High / Medium / Low (and
anomalous-activity otherwise), while the C2 category is command-and-control
for every recognized tier and anomalous-activity for an unrecognized one. -/
theorem c7_confidence_mapping (s : String) :
    (Dcuctipapi2stix.pyLower s = "high" →
      Dcuctipapi2stix.GetThreatConfidenceInfoInfected s = (85, "compromised") ∧
      Dcuctipapi2stix.GetThreatConfidenceInfoC2 s = (85, "command-and-control")) ∧
    (Dcuctipapi2stix.pyLower s = "medium" →
      Dcuctipapi2stix.GetThreatConfidenceInfoInfected s = (50, "malicious-activity") ∧
      Dcuctipapi2stix.GetThreatConfidenceInfoC2 s = (50, "command-and-control")) ∧
    (Dcuctipapi2stix.pyLower s = "low" →
      Dcuctipapi2stix.GetThreatConfidenceInfoInfected s = (25, "anomalous-activity") ∧
      Dcuctipapi2stix.GetThreatConfidenceInfoC2 s = (25, "command-and-control")) ∧
    (Dcuctipapi2stix.pyLower s ≠ "high" → Dcuctipapi2stix.pyLower s ≠ "medium" →
      Dcuctipapi2stix.pyLower s ≠ "low" →
      Dcuctipapi2stix.GetThreatConfidenceInfoInfected s = (0, "anomalous-activity") ∧
      Dcuctipapi2stix.GetThreatConfidenceInfoC2 s = (0, "anomalous-activity")) ∧
    (Dcuctipapi2stix.GetThreatConfidenceInfoInfected s).1
      = (Dcuctipapi2stix.GetThreatConfidenceInfoC2 s).1 := by
  by_cases h1 : Dcuctipapi2stix.pyLower s = "high" <;>
    by_cases h2 : Dcuctipapi2stix.pyLower s = "medium" <;>
      by_cases h3 : Dcuctipapi2stix.pyLower s = "low" <;>
        simp_all [Dcuctipapi2stix.GetThreatConfidenceInfoInfected,
          Dcuctipapi2stix.GetThreatConfidenceInfoC2]

/-- C7 witness: the mapping evaluated at mixed-case and unrecognized
inputs. -/
theorem c7_confidence_mapping_witness :
    Dcuctipapi2stix.GetThreatConfidenceInfoInfected "HiGh" = (85, "compromised") ∧
    Dcuctipapi2stix.GetThreatConfidenceInfoC2 "HiGh" = (85, "command-and-control") ∧
    Dcuctipapi2stix.GetThreatConfidenceInfoInfected "MEDIUM" = (50, "malicious-activity") ∧
    Dcuctipapi2stix.GetThreatConfidenceInfoC2 "lOw" = (25, "command-and-control") ∧
    Dcuctipapi2stix.GetThreatConfidenceInfoInfected "bogus" = (0, "anomalous-activity") ∧
    Dcuctipapi2stix.GetThreatConfidenceInfoC2 "" = (0, "anomalous-activity") := by
  have h1 := (c7_confidence_mapping "HiGh").1 (by decide)
  have h2 := (c7_confidence_mapping "MEDIUM").2.1 (by decide)
  have h3 := (c7_confidence_mapping "lOw").2.2.1 (by decide)
  have h4 := (c7_confidence_mapping "bogus").2.2.2.1 (by decide) (by decide) (by decide)
  have h5 := (c7_confidence_mapping "").2.2.2.1 (by decide) (by decide) (by decide)
  exact ⟨h1.1, h1.2, h2.1, h3.2, h4.1, h5.2⟩

/-- C10: the 0.0-coordinate nudge compares the Python string form of the
field value: a latitude or longitude whose `str()` is exactly `"0.0"`
becomes the float `0.0001`, while the JSON integer `0` (string form `"0"`)
is passed to the location entity unchanged — in both converters, for both
coordinates. -/
theorem c10_coordinate_nudge (r : Dcuctipapi2stix.CtipRecord)
    (latV lonV : Dcuctipapi2stix.PyNum) :
    Dcuctipapi2stix.normalizeCoord (some (.int 0)) = some (.int 0) ∧
    Dcuctipapi2stix.normalizeCoord (some (.float "0.0")) = some (.float "0.0001") ∧
    (∀ b, Dcuctipapi2stix.ConvertCtipInfectedToStix r = .ok b →
      r.SourceIpLatitude = .val latV → r.SourceIpLongitude = .val lonV →
      Dcuctipapi2stix.locationCoords (b.get? 6)
        = some (Dcuctipapi2stix.normalizeCoord (some latV),
                Dcuctipapi2stix.normalizeCoord (some lonV))) ∧
    (∀ b, Dcuctipapi2stix.ConvertCtipC2ToStix r = .ok b →
      r.DestinationIpLatitude = .val latV → r.DestinationIpLongitude = .val lonV →
      Dcuctipapi2stix.locationCoords (b.get? 5)
        = some (Dcuctipapi2stix.normalizeCoord (some latV),
                Dcuctipapi2stix.normalizeCoord (some lonV))) := by
  refine ⟨by decide, by decide, ?_, ?_⟩
  · intro b h hla hlo
    obtain ⟨ioc, mw, nt, sIP, dIP, asn, latOpt, lonOpt, ctry, reg, city,
      a1, c1, a2, c2, a3, c3, a4, c4, a5, c5, ap, cp,
      hb, -, -, -, -, -, -, -, -, hglat, hglon⟩ :=
      convertInfected_shape r b h
    subst hb
    rw [hla] at hglat
    rw [hlo] at hglon
    have hl1 : some latV = latOpt := Except.ok.inj hglat
    have hl2 : some lonV = lonOpt := Except.ok.inj hglon
    rw [← hl1, ← hl2]
    rfl
  · intro b h hla hlo
    obtain ⟨infra, mw, nt, dIP, asn, latOpt, lonOpt, ctry, reg, city,
      a1, c1, a2, c2, a3, c3, a4, c4, a5, c5,
      hb, -, -, -, -, -, -, -, hglat, hglon⟩ :=
      convertC2_shape r b h
    have hl1 : some latV = latOpt := by
      rw [hla] at hglat
      exact Except.ok.inj hglat
    have hl2 : some lonV = lonOpt := by
      rw [hlo] at hglon
      exact Except.ok.inj hglon
    rcases hb with hb | ⟨fname, fsha, hb⟩ <;> subst hb <;> rw [← hl1, ← hl2] <;> rfl

/-- C10 witness: `sampleRecord` carries integer-0 latitudes and float-0.0
longitudes; the produced location entities hold latitude 0 unchanged and
longitude nudged to 0.0001, in both converters. -/
theorem c10_coordinate_nudge_witness :
    Dcuctipapi2stix.locationCoords
        (((Dcuctipapi2stix.ConvertCtipInfectedToStix
            Dcuctipapi2stix.sampleRecord).toOption.getD []).get? 6)
      = some (some (.int 0), some (.float "0.0001")) ∧
    Dcuctipapi2stix.locationCoords
        (((Dcuctipapi2stix.ConvertCtipC2ToStix
            Dcuctipapi2stix.sampleRecord).toOption.getD []).get? 5)
      = some (some (.int 0), some (.float "0.0001")) := by
  have h := c10_coordinate_nudge Dcuctipapi2stix.sampleRecord (.int 0) (.float "0.0")
  have h3 := h.2.2.1 ((Dcuctipapi2stix.ConvertCtipInfectedToStix
    Dcuctipapi2stix.sampleRecord).toOption.getD []) rfl rfl rfl
  have h4 := h.2.2.2 ((Dcuctipapi2stix.ConvertCtipC2ToStix
    Dcuctipapi2stix.sampleRecord).toOption.getD []) rfl rfl rfl
  rw [h.1, h.2.1] at h3 h4
  exact ⟨h3, h4⟩
